import Mathlib

/-!
Shallow embedding of the patient-monitoring web application (src/app.py).

The core pieces embedded here, following the source:
- `assess_risk` — the pure risk classifier (app.py lines 24-30);
- the Store: `load_patients` / `save_patients` (lines 10-18), with the
  persisted JSON file modelled as absent, a well-formed document, or
  corrupt content (the `json` standard library's textual encoding is the
  external boundary; a corrupt file makes `json.load` raise, modelled as
  a deserialization error);
- the alert log: `log_alert` (lines 20-22) appends one record; the
  wall-clock timestamp written by the source is external input and is not
  part of the model, the record keeps the data of the formatted message
  (patient name and doctor name);
- the handlers `add_patient` (POST branch, lines 40-56) and
  `patient_details` (POST branch, lines 64-78).  Form parsing (including
  the comma-split of the medicines field) happens at the excluded HTTP
  boundary, so handler arguments are the already-parsed values.

Python dicts are insertion-ordered maps with unique keys; they are
embedded as association lists with an order-preserving update.
-/

/-- A single vitals reading as stored in a patient's `vitals` list
(app.py line 70): the three measurements plus the stored risk string. -/
structure VitalReading where
  bp_sys : Int
  bp_dia : Int
  pulse : Int
  risk : String
  deriving DecidableEq, Repr

/-- A patient record as created by `add_patient` (app.py lines 48-54). -/
structure Patient where
  doctor : String
  disease : String
  medicines : List String
  tests : String
  vitals : List VitalReading
  deriving DecidableEq, Repr

/-- One line of the alert log, written by `log_alert` for the message
"High Risk Alert for {name}! Notify Doctor: {doctor}" (app.py line 74).
The timestamp prepended by the source comes from the wall clock and is
external to the model. -/
structure AlertRecord where
  name : String
  doctor : String
  deriving DecidableEq, Repr

/-- Python `dict.get`: first (and only, keys are unique) binding of a key
in the insertion-ordered association list. -/
def dictGet {α : Type} : List (String × α) → String → Option α
  | [], _ => none
  | (k, v) :: rest, key => if k = key then some v else dictGet rest key

/-- Python `dict[key] = val`: replace the existing binding in place, or
append a new binding at the end (insertion order). -/
def dictSet {α : Type} : List (String × α) → String → α → List (String × α)
  | [], key, val => [(key, val)]
  | (k, v) :: rest, key, val =>
      if k = key then (key, val) :: rest else (k, v) :: dictSet rest key val

/-- Contents of the persisted patients file: either a well-formed JSON
document holding the patient mapping, or content that `json.load` cannot
parse. -/
inductive FileContent where
  | valid (m : List (String × Patient))
  | corrupt
  deriving DecidableEq, Repr

/-- Errors surfaced by the embedded operations: `json.load` raising on a
corrupt document, and Python `KeyError` on a missing dict key. -/
inductive AppError where
  | deserializationError
  | keyError (field : String)
  deriving DecidableEq, Repr

/-- The durable state the handlers read and write: the patients file
(`patients.json`, possibly absent) and the alert log (`alerts.log`,
a list of appended lines). -/
structure AppState where
  patientsFile : Option FileContent
  alertsLog : List AlertRecord
  deriving DecidableEq, Repr

/-- `load_patients` (app.py lines 10-14): empty mapping if the file does
not exist, otherwise `json.load` of the file — which raises when the
content is not well-formed JSON. -/
def load_patients : Option FileContent → Except AppError (List (String × Patient))
  | none => .ok []
  | some (.valid m) => .ok m
  | some .corrupt => .error .deserializationError

/-- `save_patients` (app.py lines 16-18): overwrite the file with the
serialization of the whole mapping. -/
def save_patients (m : List (String × Patient)) : Option FileContent :=
  some (.valid m)

/-- `log_alert` (app.py lines 20-22): append one line to the alert log. -/
def log_alert (a : AlertRecord) (log : List AlertRecord) : List AlertRecord :=
  log ++ [a]

/-- `assess_risk` (app.py lines 24-30), verbatim thresholds. -/
def assess_risk (bp_sys bp_dia pulse : Int) : String :=
  if bp_sys > 160 ∨ bp_dia > 100 ∨ pulse > 120 then "HIGH"
  else if (140 ≤ bp_sys ∧ bp_sys ≤ 160) ∨ (90 ≤ bp_dia ∧ bp_dia ≤ 100) ∨
      (100 ≤ pulse ∧ pulse ≤ 120) then "MEDIUM"
  else "LOW"

/-- POST branch of `add_patient` (app.py lines 40-56): load the mapping,
bind `name` to a fresh record with empty vitals (silently replacing any
existing record), save.  The only failure is `json.load` raising on a
corrupt file. -/
def add_patient (st : AppState) (name doctor disease : String)
    (medicines : List String) (tests : String) : Except AppError AppState :=
  match load_patients st.patientsFile with
  | .error e => .error e
  | .ok patients =>
    let p : Patient :=
      { doctor := doctor, disease := disease, medicines := medicines,
        tests := tests, vitals := [] }
    .ok { st with patientsFile := save_patients (dictSet patients name p) }

/-- POST branch of `patient_details` (app.py lines 59-78): load the
mapping; `patients.get(name, {})` falls back to an empty dict when the
name is absent, and the subsequent `patient["vitals"]` then raises
`KeyError("vitals")` — modelled by the `keyError` branch.  Otherwise
classify, append the reading, log an alert when the risk is HIGH, store
the updated record and save. -/
def patient_details (st : AppState) (name : String)
    (bp_sys bp_dia pulse : Int) : Except AppError AppState :=
  match load_patients st.patientsFile with
  | .error e => .error e
  | .ok patients =>
    match dictGet patients name with
    | none => .error (.keyError "vitals")
    | some patient =>
      let risk := assess_risk bp_sys bp_dia pulse
      let reading : VitalReading :=
        { bp_sys := bp_sys, bp_dia := bp_dia, pulse := pulse, risk := risk }
      let patient' := { patient with vitals := patient.vitals ++ [reading] }
      let alertsLog' :=
        if risk = "HIGH" then log_alert ⟨name, patient.doctor⟩ st.alertsLog
        else st.alertsLog
      .ok { patientsFile := save_patients (dictSet patients name patient'),
            alertsLog := alertsLog' }

/-- The patient mapping held by the durable state (empty when the file is
absent or unreadable). -/
def patientsOf (st : AppState) : List (String × Patient) :=
  match st.patientsFile with
  | some (.valid m) => m
  | _ => []

/-- A state-changing request to the application. -/
inductive Op where
  | addPatient (name doctor disease : String)
      (medicines : List String) (tests : String)
  | recordVitals (name : String) (bp_sys bp_dia pulse : Int)
  deriving DecidableEq, Repr

/-- Result of a request on the durable state: a failed request (an
unhandled exception) aborts before any write, leaving the state as it
was. -/
def orSame (st : AppState) : Except AppError AppState → AppState
  | .ok st' => st'
  | .error _ => st

/-- One request against the durable state. -/
def step (st : AppState) : Op → AppState
  | .addPatient n d ds ms t => orSame st (add_patient st n d ds ms t)
  | .recordVitals n s di p => orSame st (patient_details st n s di p)

/-- A sequence of requests. -/
def run (ops : List Op) (st : AppState) : AppState :=
  ops.foldl step st

/-- The state before any request: neither file exists yet. -/
def initState : AppState :=
  { patientsFile := none, alertsLog := [] }

/-- Number of HIGH readings in a vitals sequence. -/
def countHigh (vs : List VitalReading) : Nat :=
  (vs.filter (fun r => r.risk == "HIGH")).length

/-- Number of alert-log lines carrying a given patient name. -/
def countAlertsFor (log : List AlertRecord) (name : String) : Nat :=
  (log.filter (fun a => a.name == name)).length

/-- Running the classifier at a program point with ambient durable state
`st`: the source function reads only its three arguments and touches no
file and no global, so its embedding pairs the tier with the untouched
state. -/
def assess_risk_run (st : AppState) (bp_sys bp_dia pulse : Int) :
    String × AppState :=
  (assess_risk bp_sys bp_dia pulse, st)

/-- A concrete patient record, used to instantiate the theorems below. -/
def pAlice : Patient :=
  { doctor := "Dr. Smith", disease := "flu", medicines := ["paracetamol"],
    tests := "ecg", vitals := [] }

/-- A concrete durable state holding one patient and an empty alert log. -/
def stAlice : AppState :=
  { patientsFile := save_patients [("Alice", pAlice)], alertsLog := [] }

/-- The form data of one vitals-posting request. -/
structure VitalsReq where
  name : String
  bp_sys : Int
  bp_dia : Int
  pulse : Int
  deriving DecidableEq, Repr

/-- One vitals-posting request against the durable state (a failed
request aborts before any write). -/
def stepVitals (st : AppState) (r : VitalsReq) : AppState :=
  orSame st (patient_details st r.name r.bp_sys r.bp_dia r.pulse)

/-- A sequence of vitals-posting requests. -/
def runVitals (rs : List VitalsReq) (st : AppState) : AppState :=
  rs.foldl stepVitals st

/-- The alert-to-vitals synchronisation invariant: every stored patient
has exactly as many HIGH readings as there are alert-log lines carrying
that patient's name (so an alert exists for every HIGH reading and for
no MEDIUM or LOW reading). -/
def alertSync (st : AppState) : Prop :=
  ∀ name p, dictGet (patientsOf st) name = some p →
    countHigh p.vitals = countAlertsFor st.alertsLog name

/-- Every stored reading carries the risk the classifier assigns to its
own three measurements. -/
def goodRisks (st : AppState) : Prop :=
  ∀ name p, dictGet (patientsOf st) name = some p →
    ∀ r ∈ p.vitals, r.risk = assess_risk r.bp_sys r.bp_dia r.pulse

/-- C1: for all integer inputs, `assess_risk` returns HIGH exactly when
`bp_sys > 160` or `bp_dia > 100` or `pulse > 120`; otherwise MEDIUM
exactly when `bp_sys ∈ [140,160]` or `bp_dia ∈ [90,100]` or
`pulse ∈ [100,120]`; otherwise LOW; and in particular
`assess_risk 160 0 0 = "MEDIUM"` and `assess_risk 161 0 0 = "HIGH"`. -/
theorem c1_classifier_thresholds :
    (∀ s d p : Int,
      (assess_risk s d p = "HIGH" ↔ s > 160 ∨ d > 100 ∨ p > 120) ∧
      (assess_risk s d p = "MEDIUM" ↔
        ¬(s > 160 ∨ d > 100 ∨ p > 120) ∧
        ((140 ≤ s ∧ s ≤ 160) ∨ (90 ≤ d ∧ d ≤ 100) ∨
          (100 ≤ p ∧ p ≤ 120))) ∧
      (assess_risk s d p = "LOW" ↔
        ¬(s > 160 ∨ d > 100 ∨ p > 120) ∧
        ¬((140 ≤ s ∧ s ≤ 160) ∨ (90 ≤ d ∧ d ≤ 100) ∨
          (100 ≤ p ∧ p ≤ 120)))) ∧
    assess_risk 160 0 0 = "MEDIUM" ∧ assess_risk 161 0 0 = "HIGH" := by
  refine ⟨fun s d p => ?_, by decide, by decide⟩
  unfold assess_risk
  split_ifs with h1 h2 <;>
    refine ⟨?_, ?_, ?_⟩ <;> simp_all

theorem dictGet_dictSet_self {α : Type} (m : List (String × α)) (k : String)
    (v : α) : dictGet (dictSet m k v) k = some v := by
  induction m with
  | nil => simp [dictGet, dictSet]
  | cons hd tl ih =>
    obtain ⟨k', v'⟩ := hd
    by_cases hk : k' = k
    · simp [dictSet, hk, dictGet]
    · simp [dictSet, hk, dictGet, ih]

theorem dictGet_dictSet_ne {α : Type} (m : List (String × α)) (k k' : String)
    (v : α) (h : k' ≠ k) : dictGet (dictSet m k v) k' = dictGet m k' := by
  induction m with
  | nil => simp [dictGet, dictSet, Ne.symm h]
  | cons hd tl ih =>
    obtain ⟨k'', v''⟩ := hd
    by_cases hk : k'' = k
    · subst hk
      simp [dictSet, dictGet, Ne.symm h]
    · simp [dictSet, hk, dictGet, ih]

theorem file_eq_of_get {st : AppState} {name : String} {p : Patient}
    (h : dictGet (patientsOf st) name = some p) :
    st.patientsFile = some (FileContent.valid (patientsOf st)) := by
  obtain ⟨file, log⟩ := st
  cases file with
  | none => simp [patientsOf, dictGet] at h
  | some c =>
    cases c with
    | corrupt => simp [patientsOf, dictGet] at h
    | valid m => rfl

/-- C9: the classifier is deterministic and side-effect-free — two runs
on equal integer inputs, in arbitrary (possibly different) ambient
durable states, produce the same risk tier, and each run leaves its
ambient state exactly as it was. -/
theorem c9_classifier_pure (st₁ st₂ : AppState) (s₁ d₁ p₁ s₂ d₂ p₂ : Int)
    (hs : s₁ = s₂) (hd : d₁ = d₂) (hp : p₁ = p₂) :
    (assess_risk_run st₁ s₁ d₁ p₁).1 = (assess_risk_run st₂ s₂ d₂ p₂).1 ∧
    (assess_risk_run st₁ s₁ d₁ p₁).2 = st₁ := by
  subst hs; subst hd; subst hp
  exact ⟨rfl, rfl⟩

/-- Witness for C9 at concrete inputs and two distinct states. -/
theorem c9_classifier_pure_witness :
    (150 : Int) = 150 ∧
    ((assess_risk_run initState 150 70 70).1 =
      (assess_risk_run stAlice 150 70 70).1 ∧
     (assess_risk_run initState 150 70 70).2 = initState) :=
  ⟨rfl, c9_classifier_pure initState stAlice 150 70 70 150 70 70 rfl rfl rfl⟩

/-- C6: `load_patients` returns the empty mapping when no persisted file
exists; returns the deserialization of the whole document when one
exists and is well-formed; and fails with a deserialization error when
the persisted content is not well-formed. -/
theorem c6_load_cases :
    load_patients none = Except.ok [] ∧
    (∀ m : List (String × Patient),
      load_patients (some (FileContent.valid m)) = Except.ok m) ∧
    load_patients (some FileContent.corrupt) =
      Except.error AppError.deserializationError :=
  ⟨rfl, fun _ => rfl, rfl⟩

/-- C7: save/load round-trip — loading the file written by
`save_patients P` yields exactly `P`, and saving that loaded document
writes a file equal to the one `save_patients P` wrote, so
`save(load(save(P)))` produces a document equal to `P`. -/
theorem c7_save_load_roundtrip (P : List (String × Patient)) :
    load_patients (save_patients P) = Except.ok P ∧
    (load_patients (save_patients P)).map save_patients =
      Except.ok (save_patients P) :=
  ⟨rfl, rfl⟩

/-- C8: adding a patient under a name that is already present silently
replaces the whole existing record with the fresh one (whose vitals list
is empty), raising no error and touching nothing else. -/
theorem c8_add_overwrites (st : AppState) (name : String) (old : Patient)
    (doctor disease : String) (medicines : List String) (tests : String)
    (h : dictGet (patientsOf st) name = some old) :
    ∃ st', add_patient st name doctor disease medicines tests = Except.ok st' ∧
      dictGet (patientsOf st') name =
        some { doctor := doctor, disease := disease, medicines := medicines,
               tests := tests, vitals := [] } ∧
      st'.alertsLog = st.alertsLog := by
  have hf := file_eq_of_get h
  refine ⟨{ st with patientsFile := save_patients (dictSet (patientsOf st) name
      { doctor := doctor, disease := disease, medicines := medicines,
        tests := tests, vitals := [] }) }, ?_, ?_, ?_⟩
  · simp only [add_patient, hf, load_patients]
  · simp [patientsOf, save_patients, dictGet_dictSet_self]
  · rfl

/-- Witness for C8: overwriting the stored record of "Alice". -/
theorem c8_add_overwrites_witness :
    dictGet (patientsOf stAlice) "Alice" = some pAlice ∧
    (∃ st', add_patient stAlice "Alice" "Dr. Jones" "cold" [] "xray" =
        Except.ok st' ∧
      dictGet (patientsOf st') "Alice" =
        some { doctor := "Dr. Jones", disease := "cold", medicines := [],
               tests := "xray", vitals := [] } ∧
      st'.alertsLog = stAlice.alertsLog) :=
  ⟨by decide,
   c8_add_overwrites stAlice "Alice" pAlice "Dr. Jones" "cold" [] "xray"
     (by decide)⟩

theorem load_patients_not_corrupt (st : AppState)
    (h : st.patientsFile ≠ some FileContent.corrupt) :
    load_patients st.patientsFile = Except.ok (patientsOf st) := by
  obtain ⟨file, log⟩ := st
  cases file with
  | none => rfl
  | some c =>
    cases c with
    | corrupt => exact absurd rfl h
    | valid m => rfl

theorem patient_details_ok (st : AppState) (name : String) (p : Patient)
    (s d pl : Int) (h : dictGet (patientsOf st) name = some p) :
    patient_details st name s d pl = Except.ok
      { patientsFile := save_patients (dictSet (patientsOf st) name
          { p with vitals := p.vitals ++
              [{ bp_sys := s, bp_dia := d, pulse := pl,
                 risk := assess_risk s d pl }] }),
        alertsLog := if assess_risk s d pl = "HIGH"
          then log_alert { name := name, doctor := p.doctor } st.alertsLog
          else st.alertsLog } := by
  obtain ⟨file, log⟩ := st
  cases file with
  | none => simp [patientsOf, dictGet] at h
  | some c =>
    cases c with
    | corrupt => simp [patientsOf, dictGet] at h
    | valid m =>
      have hm : dictGet m name = some p := by simpa [patientsOf] using h
      simp [patient_details, load_patients, hm, patientsOf]

/-- C3: posting vitals for a name absent from the stored mapping fails —
but with a raw `KeyError("vitals")` coming from the `patients.get(name,
{})` empty-dict fallback, not with a patient-not-found error; it never
silently appends to a default record. -/
theorem c3_missing_patient_keyerror (st : AppState) (name : String)
    (s d pl : Int) (hfile : st.patientsFile ≠ some FileContent.corrupt)
    (h : dictGet (patientsOf st) name = none) :
    patient_details st name s d pl =
      Except.error (AppError.keyError "vitals") := by
  obtain ⟨file, log⟩ := st
  cases file with
  | none => rfl
  | some c =>
    cases c with
    | corrupt => exact absurd rfl hfile
    | valid m =>
      have hm : dictGet m name = none := by simpa [patientsOf] using h
      simp [patient_details, load_patients, hm]

/-- Witness for C3: posting vitals for the unknown name "Bob". -/
theorem c3_missing_patient_keyerror_witness :
    stAlice.patientsFile ≠ some FileContent.corrupt ∧
    dictGet (patientsOf stAlice) "Bob" = none ∧
    patient_details stAlice "Bob" 120 80 70 =
      Except.error (AppError.keyError "vitals") :=
  ⟨by decide, by decide,
   c3_missing_patient_keyerror stAlice "Bob" 120 80 70 (by decide) (by decide)⟩

/-- C5: posting vitals for a stored patient succeeds and the patient's
new vitals sequence is exactly the previous one with the single new
reading appended at the end — the old sequence is an exact prefix, no
reading is edited or removed. -/
theorem c5_vitals_append_only (st : AppState) (name : String) (p : Patient)
    (s d pl : Int) (h : dictGet (patientsOf st) name = some p) :
    ∃ st', patient_details st name s d pl = Except.ok st' ∧
      dictGet (patientsOf st') name =
        some { p with vitals := p.vitals ++
          [{ bp_sys := s, bp_dia := d, pulse := pl,
             risk := assess_risk s d pl }] } := by
  refine ⟨_, patient_details_ok st name p s d pl h, ?_⟩
  simp [patientsOf, save_patients, dictGet_dictSet_self]

/-- Witness for C5: recording vitals (170, 95, 80) for "Alice". -/
theorem c5_vitals_append_only_witness :
    dictGet (patientsOf stAlice) "Alice" = some pAlice ∧
    (∃ st', patient_details stAlice "Alice" 170 95 80 = Except.ok st' ∧
      dictGet (patientsOf st') "Alice" =
        some { pAlice with vitals := pAlice.vitals ++
          [{ bp_sys := 170, bp_dia := 95, pulse := 80,
             risk := assess_risk 170 95 80 }] }) :=
  ⟨by decide, c5_vitals_append_only stAlice "Alice" pAlice 170 95 80 (by decide)⟩

/-- C10: posting vitals for a stored patient touches only that patient's
vitals sequence — the patient's doctor, disease, medicines and tests are
unchanged, and every other name maps to exactly the record it mapped to
before. -/
theorem c10_frame_only_vitals (st : AppState) (name : String) (p : Patient)
    (s d pl : Int) (h : dictGet (patientsOf st) name = some p) :
    ∃ st', patient_details st name s d pl = Except.ok st' ∧
      (∃ p', dictGet (patientsOf st') name = some p' ∧
        p'.doctor = p.doctor ∧ p'.disease = p.disease ∧
        p'.medicines = p.medicines ∧ p'.tests = p.tests) ∧
      (∀ other, other ≠ name →
        dictGet (patientsOf st') other = dictGet (patientsOf st) other) := by
  refine ⟨_, patient_details_ok st name p s d pl h,
    ⟨{ p with vitals := p.vitals ++
        [{ bp_sys := s, bp_dia := d, pulse := pl,
           risk := assess_risk s d pl }] }, ?_, rfl, rfl, rfl, rfl⟩, ?_⟩
  · simp [patientsOf, save_patients, dictGet_dictSet_self]
  · intro other ho
    simp [patientsOf, save_patients, dictGet_dictSet_ne _ _ _ _ ho]

/-- Witness for C10: recording vitals for "Alice" leaves the record of
every other name, such as "Bob", untouched. -/
theorem c10_frame_only_vitals_witness :
    dictGet (patientsOf stAlice) "Alice" = some pAlice ∧
    (∃ st', patient_details stAlice "Alice" 170 95 80 = Except.ok st' ∧
      (∃ p', dictGet (patientsOf st') "Alice" = some p' ∧
        p'.doctor = pAlice.doctor ∧ p'.disease = pAlice.disease ∧
        p'.medicines = pAlice.medicines ∧ p'.tests = pAlice.tests) ∧
      (∀ other, other ≠ "Alice" →
        dictGet (patientsOf st') other = dictGet (patientsOf stAlice) other)) :=
  ⟨by decide, c10_frame_only_vitals stAlice "Alice" pAlice 170 95 80 (by decide)⟩

theorem countHigh_append (vs : List VitalReading) (r : VitalReading) :
    countHigh (vs ++ [r]) =
      countHigh vs + (if r.risk = "HIGH" then 1 else 0) := by
  by_cases hr : r.risk = "HIGH" <;>
    simp [countHigh, List.filter_append, hr]

theorem countAlertsFor_append (log : List AlertRecord) (a : AlertRecord)
    (q : String) :
    countAlertsFor (log ++ [a]) q =
      countAlertsFor log q + (if a.name = q then 1 else 0) := by
  by_cases ha : a.name = q <;>
    simp [countAlertsFor, List.filter_append, ha]

theorem patient_details_ok_inv {st st' : AppState} {n : String}
    {s d pl : Int} (h : patient_details st n s d pl = Except.ok st') :
    ∃ p, dictGet (patientsOf st) n = some p ∧
      st' = { patientsFile := save_patients (dictSet (patientsOf st) n
                { p with vitals := p.vitals ++
                    [{ bp_sys := s, bp_dia := d, pulse := pl,
                       risk := assess_risk s d pl }] }),
              alertsLog := if assess_risk s d pl = "HIGH"
                then log_alert { name := n, doctor := p.doctor } st.alertsLog
                else st.alertsLog } := by
  obtain ⟨file, log⟩ := st
  cases file with
  | none => simp [patient_details, load_patients, dictGet] at h
  | some c =>
    cases c with
    | corrupt => simp [patient_details, load_patients] at h
    | valid m =>
      cases hm : dictGet m n with
      | none => simp [patient_details, load_patients, hm] at h
      | some p =>
        refine ⟨p, by simpa [patientsOf] using hm, ?_⟩
        simp [patient_details, load_patients, hm] at h
        simp [patientsOf]
        exact h.symm

theorem add_patient_ok_inv {st st' : AppState} {n d ds : String}
    {ms : List String} {t : String}
    (h : add_patient st n d ds ms t = Except.ok st') :
    st' = { st with patientsFile := save_patients (dictSet (patientsOf st) n
      { doctor := d, disease := ds, medicines := ms, tests := t,
        vitals := [] }) } := by
  obtain ⟨file, log⟩ := st
  cases file with
  | none =>
    simp [add_patient, load_patients, patientsOf] at h ⊢
    exact h.symm
  | some c =>
    cases c with
    | corrupt => simp [add_patient, load_patients] at h
    | valid m =>
      simp [add_patient, load_patients, patientsOf] at h ⊢
      exact h.symm

theorem alertSync_step (st : AppState) (r : VitalsReq) (h : alertSync st) :
    alertSync (stepVitals st r) := by
  unfold stepVitals
  cases hres : patient_details st r.name r.bp_sys r.bp_dia r.pulse with
  | error e => simpa [orSame] using h
  | ok st' =>
    obtain ⟨p, hp, rfl⟩ := patient_details_ok_inv hres
    intro q pq hq
    simp only [orSame] at hq ⊢
    simp only [patientsOf, save_patients] at hq
    by_cases hqn : q = r.name
    · subst hqn
      rw [dictGet_dictSet_self] at hq
      have hpq : pq = { p with vitals := p.vitals ++
          [{ bp_sys := r.bp_sys, bp_dia := r.bp_dia, pulse := r.pulse,
             risk := assess_risk r.bp_sys r.bp_dia r.pulse }] } :=
        (Option.some.inj hq).symm
      have hbase := h r.name p hp
      by_cases hrisk : assess_risk r.bp_sys r.bp_dia r.pulse = "HIGH"
      · simp [hpq, countHigh_append, countAlertsFor_append, log_alert,
          hrisk, hbase]
      · simp [hpq, countHigh_append, hrisk, hbase]
    · rw [dictGet_dictSet_ne _ _ _ _ hqn] at hq
      have hbase := h q pq hq
      have hrq : ¬r.name = q := fun hh => hqn hh.symm
      by_cases hrisk : assess_risk r.bp_sys r.bp_dia r.pulse = "HIGH"
      · simp [countAlertsFor_append, log_alert, hrisk, hbase, hrq]
      · simp [hrisk, hbase]

/-- C2: starting from any durable state in which every stored patient has
exactly as many HIGH readings as alert-log lines carrying their name,
any sequence of vitals-posting requests preserves that property: an
alert line exists for every HIGH reading, none for a MEDIUM or LOW one,
and the per-patient counts stay equal. -/
theorem c2_alert_invariant (st : AppState) (h : alertSync st)
    (rs : List VitalsReq) : alertSync (runVitals rs st) := by
  induction rs generalizing st with
  | nil => exact h
  | cons r rs ih =>
    simp only [runVitals, List.foldl]
    exact ih (stepVitals st r) (alertSync_step st r h)

/-- Witness for C2: one HIGH reading recorded for "Alice". -/
theorem c2_alert_invariant_witness :
    alertSync stAlice ∧
    alertSync (runVitals
      [{ name := "Alice", bp_sys := 170, bp_dia := 95, pulse := 80 }]
      stAlice) := by
  have hsync : alertSync stAlice := by
    intro q pq hq
    by_cases hn : "Alice" = q
    · simp [stAlice, patientsOf, save_patients, dictGet, hn] at hq
      simp [← hq, stAlice, pAlice, countHigh, countAlertsFor]
    · simp [stAlice, patientsOf, save_patients, dictGet, hn] at hq
  exact ⟨hsync, c2_alert_invariant stAlice hsync _⟩

theorem goodRisks_step (st : AppState) (op : Op) (h : goodRisks st) :
    goodRisks (step st op) := by
  cases op with
  | addPatient n d ds ms t =>
    simp only [step]
    cases hres : add_patient st n d ds ms t with
    | error e => simpa [orSame] using h
    | ok st' =>
      obtain rfl := add_patient_ok_inv hres
      intro q pq hq
      simp only [orSame, patientsOf, save_patients] at hq
      by_cases hqn : q = n
      · subst hqn
        rw [dictGet_dictSet_self] at hq
        have hpq : pq = { doctor := d, disease := ds, medicines := ms,
                          tests := t, vitals := [] } :=
          (Option.some.inj hq).symm
        intro rr hr
        rw [hpq] at hr
        simp at hr
      · rw [dictGet_dictSet_ne _ _ _ _ hqn] at hq
        exact h q pq hq
  | recordVitals n s d pl =>
    simp only [step]
    cases hres : patient_details st n s d pl with
    | error e => simpa [orSame] using h
    | ok st' =>
      obtain ⟨p, hp, rfl⟩ := patient_details_ok_inv hres
      intro q pq hq
      simp only [orSame, patientsOf, save_patients] at hq
      by_cases hqn : q = n
      · subst hqn
        rw [dictGet_dictSet_self] at hq
        have hpq : pq = { p with vitals := p.vitals ++
            [{ bp_sys := s, bp_dia := d, pulse := pl,
               risk := assess_risk s d pl }] } := (Option.some.inj hq).symm
        intro rr hr
        rw [hpq] at hr
        simp only [List.mem_append, List.mem_singleton] at hr
        cases hr with
        | inl hold => exact h q p hp rr hold
        | inr hnew => rw [hnew]
      · rw [dictGet_dictSet_ne _ _ _ _ hqn] at hq
        exact h q pq hq

theorem goodRisks_run (ops : List Op) (st : AppState) (h : goodRisks st) :
    goodRisks (run ops st) := by
  induction ops generalizing st with
  | nil => exact h
  | cons op ops ih =>
    simp only [run, List.foldl]
    exact ih (step st op) (goodRisks_step st op h)

theorem goodRisks_init : goodRisks initState := by
  intro q pq hq
  simp [patientsOf, initState, dictGet] at hq

/-- C4: in every durable state reachable from the initial empty state by
any sequence of add-patient and vitals-posting requests, every reading
stored in any patient's vitals sequence carries exactly the risk the
classifier assigns to that reading's own three measurements. -/
theorem c4_risk_at_creation (ops : List Op) (name : String) (p : Patient)
    (h : dictGet (patientsOf (run ops initState)) name = some p)
    (r : VitalReading) (hr : r ∈ p.vitals) :
    r.risk = assess_risk r.bp_sys r.bp_dia r.pulse :=
  goodRisks_run ops initState goodRisks_init name p h r hr

/-- Witness for C4: add "Alice", then record the HIGH reading
(170, 95, 80); the stored reading carries risk "HIGH". -/
theorem c4_risk_at_creation_witness :
    dictGet (patientsOf (run
      [Op.addPatient "Alice" "Dr. Smith" "flu" ["paracetamol"] "ecg",
       Op.recordVitals "Alice" 170 95 80] initState)) "Alice" =
      some { doctor := "Dr. Smith", disease := "flu",
             medicines := ["paracetamol"], tests := "ecg",
             vitals := [{ bp_sys := 170, bp_dia := 95, pulse := 80,
                          risk := "HIGH" }] } ∧
    ({ bp_sys := 170, bp_dia := 95, pulse := 80,
       risk := "HIGH" } : VitalReading) ∈
      [({ bp_sys := 170, bp_dia := 95, pulse := 80,
          risk := "HIGH" } : VitalReading)] ∧
    ({ bp_sys := 170, bp_dia := 95, pulse := 80,
       risk := "HIGH" } : VitalReading).risk =
      assess_risk 170 95 80 :=
  ⟨by decide, by decide,
   c4_risk_at_creation
     [Op.addPatient "Alice" "Dr. Smith" "flu" ["paracetamol"] "ecg",
      Op.recordVitals "Alice" 170 95 80] "Alice"
     { doctor := "Dr. Smith", disease := "flu",
       medicines := ["paracetamol"], tests := "ecg",
       vitals := [{ bp_sys := 170, bp_dia := 95, pulse := 80,
                    risk := "HIGH" }] }
     (by decide) _ (by decide)⟩
